import Mathlib

/-
Verification development for the Greenfield voice assistant
(src/queries.py). The conversational core is shallowly embedded:
pure text processing functions are translated directly, and the
I/O-dependent parts (recording, transcription, translation service,
speech synthesis) are modelled by explicit environment records and
oracles describing the outcomes of the external calls.
-/

set_option maxHeartbeats 1000000

/-- Python list-of-chars test: `startsWithL needle hay` is true when
`hay` begins with `needle` (character-by-character comparison). -/
def startsWithL : List Char → List Char → Bool
  | [], _ => true
  | _ :: _, [] => false
  | a :: ns, b :: hs => a == b && startsWithL ns hs

/-- Python substring containment on char lists: `containsL hay needle`
is true when `needle` occurs contiguously inside `hay` (the semantics
of the Python expression `needle in hay` on strings). -/
def containsL (hay needle : List Char) : Bool :=
  match hay with
  | [] => needle.isEmpty
  | c :: rest => startsWithL needle (c :: rest) || containsL rest needle

/-- Python `needle in hay` on strings. -/
def pyIn (needle hay : String) : Bool := containsL hay.data needle.data

/-- Occurrence as a contiguous substring, stated by decomposition. -/
def OccursIn (needle hay : String) : Prop :=
  ∃ pre post, hay.data = pre ++ needle.data ++ post

/-- Python `str.lower` on a char list (ASCII case folding, which matches
Python on every character occurring in the program data). -/
def lowerL (l : List Char) : List Char := l.map Char.toLower

/-- Whitespace recognized by Python `str.strip`. -/
def isSpaceChar (c : Char) : Bool :=
  c == ' ' || c == '\t' || c == '\n' || c == '\r' || c == '\x0b' || c == '\x0c'

/-- Python `str.strip` on a char list: drop whitespace from both ends. -/
def stripL (l : List Char) : List Char :=
  ((l.dropWhile isSpaceChar).reverse.dropWhile isSpaceChar).reverse

/-- The normalization `text.lower().strip()` applied by the source before
keyword matching (queries.py lines 480 and 529). -/
def pyNorm (s : String) : String := ⟨stripL (lowerL s.data)⟩

lemma startsWithL_iff (n : List Char) : ∀ h : List Char,
    startsWithL n h = true ↔ ∃ t, h = n ++ t := by
  induction n with
  | nil => intro h; simp [startsWithL]
  | cons a ns ih =>
    intro h
    cases h with
    | nil =>
      simp [startsWithL]
    | cons b hs =>
      simp only [startsWithL, Bool.and_eq_true, beq_iff_eq, ih, List.cons_append,
        List.cons.injEq]
      constructor
      · rintro ⟨h1, t, h2⟩; exact ⟨t, h1.symm, h2⟩
      · rintro ⟨t, h1, h2⟩; exact ⟨h1.symm, t, h2⟩

lemma containsL_iff (hay : List Char) : ∀ needle : List Char,
    containsL hay needle = true ↔ ∃ pre post, hay = pre ++ needle ++ post := by
  induction hay with
  | nil =>
    intro needle
    simp only [containsL, List.isEmpty_iff]
    constructor
    · rintro rfl; exact ⟨[], [], rfl⟩
    · rintro ⟨pre, post, h⟩
      have h' := h.symm
      simp only [List.append_assoc, List.append_eq_nil] at h'
      exact h'.2.1
  | cons c rest ih =>
    intro needle
    simp only [containsL, Bool.or_eq_true, startsWithL_iff, ih]
    constructor
    · rintro (⟨t, ht⟩ | ⟨pre, post, hpp⟩)
      · exact ⟨[], t, by simpa using ht⟩
      · exact ⟨c :: pre, post, by simp [hpp]⟩
    · rintro ⟨pre, post, hpp⟩
      cases pre with
      | nil => exact Or.inl ⟨post, by simpa using hpp⟩
      | cons p ps =>
        simp only [List.cons_append, List.cons.injEq] at hpp
        exact Or.inr ⟨ps, post, hpp.2⟩

lemma pyIn_iff (needle hay : String) : pyIn needle hay = true ↔ OccursIn needle hay := by
  simpa [pyIn, OccursIn] using containsL_iff hay.data needle.data

/-- Config.EXIT_KEYWORDS from queries.py line 53. -/
def EXIT_KEYWORDS : List String :=
  ["stop", "exit", "quit", "goodbye", "bye", "end", "band karo", "rukh jao"]

/-- Translation of `should_exit` (queries.py lines 524-535): empty text
never exits; otherwise each configured keyword is tested with the Python
substring operator against the lower-cased, stripped text. -/
def should_exit (text : String) : Bool :=
  if text = "" then false
  else EXIT_KEYWORDS.any (fun keyword => pyIn keyword (pyNorm text))

lemma should_exit_iff (text : String) :
    should_exit text = true ↔ ∃ k ∈ EXIT_KEYWORDS, OccursIn k (pyNorm text) := by
  by_cases he : text = ""
  · subst he
    have hfalse : should_exit "" = false := rfl
    rw [hfalse]
    simp only [Bool.false_eq_true, false_iff]
    rintro ⟨k, hk, pre, post, hpp⟩
    have hd : (pyNorm "").data = [] := rfl
    rw [hd] at hpp
    have h' := hpp.symm
    simp only [List.append_assoc, List.append_eq_nil] at h'
    have hne : ∀ k ∈ EXIT_KEYWORDS, k.data ≠ [] := by decide
    exact hne k hk h'.2.1
  · simp only [should_exit, if_neg he, List.any_eq_true]
    constructor
    · rintro ⟨k, hk, hin⟩; exact ⟨k, hk, (pyIn_iff k (pyNorm text)).mp hin⟩
    · rintro ⟨k, hk, hocc⟩; exact ⟨k, hk, (pyIn_iff k (pyNorm text)).mpr hocc⟩

/-- Knowledge-base answer rendered for the principal category
(queries.py line 487). -/
def principal_answer : String := "The principal's name is Dr. Ananya Sharma."

/-- Answer for the school-name category (line 492). -/
def school_name_answer : String := "The school's name is Greenfield International School."

/-- Answer for the location category (line 496). -/
def location_answer : String := "The school is located in Mumbai."

/-- Answer for the motto category (line 500). -/
def motto_answer : String := "The school motto is 'Knowledge is Power'."

/-- Answer for the established category (line 504). -/
def established_answer : String := "The school was established in 1995."

/-- Answer for the grades category (line 508). -/
def grades_answer : String := "We offer kindergarten through grade 12."

/-- Answer for the timings category (line 512). -/
def timings_answer : String := "School timings are 8:00 AM to 3:00 PM."

/-- Answer for the contact category (line 516). -/
def contact_answer : String := "You can contact us at 022-1234-5678 or email info@greenfield.edu.in."

/-- Fixed prompt returned for empty input (line 478). -/
def didnt_catch_answer : String := "Sorry, I didn't catch that. Could you please repeat?"

/-- Fixed fallback returned when no category matches (line 522). -/
def no_match_answer : String := "Sorry, I couldn't find an answer for that. You can ask about the principal, school name, location, motto, grades, timings, or contact information."

/-- Python `any(word in text for word in ws)`. -/
def matchAny (ws : List String) (t : String) : Bool := ws.any (fun w => pyIn w t)

/-- Principal category condition (line 486). -/
def m_principal (t : String) : Bool :=
  matchAny ["principal", "head", "headmaster", "director", "प्रिंसिपल", "प्रधानाचार्य"] t

/-- School-name category condition (lines 490-491): conjunction of a
school word and a name word. -/
def m_school_name (t : String) : Bool :=
  matchAny ["school", "institution", "academy", "स्कूल"] t &&
  matchAny ["name", "called", "नाम"] t

/-- Location category condition (line 495). -/
def m_location (t : String) : Bool :=
  matchAny ["location", "where", "place", "city", "located", "कहाँ", "स्थान"] t

/-- Motto category condition (line 499). -/
def m_motto (t : String) : Bool :=
  matchAny ["motto", "slogan", "tagline", "आदर्श"] t

/-- Established category condition (line 503). -/
def m_established (t : String) : Bool :=
  matchAny ["established", "founded", "started", "when", "कब", "स्थापित"] t

/-- Grades category condition (line 507). -/
def m_grades (t : String) : Bool :=
  matchAny ["grade", "class", "level", "कक्षा"] t

/-- Timings category condition (line 511). -/
def m_timings (t : String) : Bool :=
  matchAny ["timing", "time", "schedule", "hours", "समय"] t

/-- Contact category condition (line 515). -/
def m_contact (t : String) : Bool :=
  matchAny ["contact", "phone", "number", "call", "संपर्क"] t

/-- The `responses` list built by `compare_to_facts` as a function of the
eight category conditions, in the order the source appends them. -/
def responseList (b1 b2 b3 b4 b5 b6 b7 b8 : Bool) : List String :=
  (if b1 then [principal_answer] else []) ++
  ((if b2 then [school_name_answer] else []) ++
  ((if b3 then [location_answer] else []) ++
  ((if b4 then [motto_answer] else []) ++
  ((if b5 then [established_answer] else []) ++
  ((if b6 then [grades_answer] else []) ++
  ((if b7 then [timings_answer] else []) ++
  ((if b8 then [contact_answer] else []) ++ ([] : List String))))))))

/-- The responses accumulated for a normalized text. -/
def responsesOf (t : String) : List String :=
  responseList (m_principal t) (m_school_name t) (m_location t) (m_motto t)
    (m_established t) (m_grades t) (m_timings t) (m_contact t)

/-- Python `sep.join(l)`. -/
def pyJoin (sep : String) : List String → String
  | [] => ""
  | [x] => x
  | x :: xs => x ++ sep ++ pyJoin sep xs

/-- Translation of `compare_to_facts` (queries.py lines 475-522): empty
input returns the fixed prompt before any matching; otherwise the text is
lower-cased and stripped, every category condition is tested, the matched
answers are joined with single spaces, and if nothing matched the fixed
fallback is returned. -/
def compare_to_facts (text : String) : String :=
  if text = "" then didnt_catch_answer
  else
    let t := pyNorm text
    let responses := responsesOf t
    if responses = [] then no_match_answer
    else pyJoin " " responses

/-- Number of category patterns evaluated by `compare_to_facts`: the
empty-input branch returns before any condition is tested; otherwise all
eight category conditions are evaluated. -/
def compare_to_facts_patterns_tested (text : String) : Nat :=
  if text = "" then 0
  else
    let t := pyNorm text
    [m_principal t, m_school_name t, m_location t, m_motto t,
     m_established t, m_grades t, m_timings t, m_contact t].length

/-- All eight category answers in table order. -/
def all_fact_answers : List String :=
  [principal_answer, school_name_answer, location_answer, motto_answer,
   established_answer, grades_answer, timings_answer, contact_answer]

lemma data_append (a b : String) : (a ++ b).data = a.data ++ b.data := by
  cases a; cases b; rfl

lemma str_eq_empty_of_data {s : String} (h : s.data = []) : s = "" := by
  cases s with
  | mk d => cases h; rfl

lemma str_append_assoc (a b c : String) : a ++ b ++ c = a ++ (b ++ c) := by
  cases a; cases b; cases c
  show String.mk _ = String.mk _
  simp [String.append, List.append_assoc]

lemma str_append_empty (a : String) : a ++ "" = a := by
  cases a
  show String.mk _ = String.mk _
  simp [String.append]

lemma pyJoin_cons_shape (x : String) (l : List String) :
    ∃ s, pyJoin " " (x :: l) = x ++ s := by
  cases l with
  | nil => exact ⟨"", (str_append_empty x).symm⟩
  | cons y r =>
    exact ⟨" " ++ pyJoin " " (y :: r), by simp [pyJoin, str_append_assoc]⟩

lemma pyJoin_ne_empty : ∀ l : List String, l ≠ [] → (∀ s ∈ l, s ≠ "") →
    pyJoin " " l ≠ "" := by
  intro l
  induction l with
  | nil => intro h; exact absurd rfl h
  | cons x xs ih =>
    intro _ hmem
    cases xs with
    | nil =>
      simpa [pyJoin] using hmem x (by simp)
    | cons y r =>
      intro hcontra
      have hx : x ≠ "" := hmem x (by simp)
      have hdata : (x ++ " " ++ pyJoin " " (y :: r)).data = [] := by
        rw [show x ++ " " ++ pyJoin " " (y :: r) = pyJoin " " (x :: y :: r) from rfl]
        rw [hcontra]
      rw [data_append, data_append] at hdata
      simp only [List.append_assoc, List.append_eq_nil] at hdata
      exact hx (str_eq_empty_of_data hdata.1)

lemma sublist_if_cons (b : Bool) (a : String) {l r : List String}
    (h : List.Sublist l r) :
    List.Sublist ((if b then [a] else []) ++ l) (a :: r) := by
  cases b
  · simpa using List.Sublist.cons a h
  · simpa using List.Sublist.cons₂ a h

lemma responseList_sublist (b1 b2 b3 b4 b5 b6 b7 b8 : Bool) :
    List.Sublist (responseList b1 b2 b3 b4 b5 b6 b7 b8) all_fact_answers := by
  unfold responseList all_fact_answers
  exact sublist_if_cons b1 _ (sublist_if_cons b2 _ (sublist_if_cons b3 _
    (sublist_if_cons b4 _ (sublist_if_cons b5 _ (sublist_if_cons b6 _
    (sublist_if_cons b7 _ (sublist_if_cons b8 _ (List.Sublist.refl []))))))))

lemma all_fact_answers_ne_empty : ∀ s ∈ all_fact_answers, s ≠ "" := by decide

/-- Environment for the translation layer (queries.py lines 96-103):
whether the googletrans import succeeded, and the behavior of the external
service on each request (`some t` for a successful translation, `none`
for an exception). -/
structure TransEnv where
  hasGoogletrans : Bool
  svcResult : String → String → Option String

/-- Observable service usage: how many times the external translation
provider has been invoked. -/
structure SvcState where
  translateCalls : Nat

/-- Translation of `translate_text` (queries.py lines 294-308): when the
googletrans backend is unavailable it returns None before anything else;
when the target language is "en" it returns the text unchanged; otherwise
it invokes the external service (counted in the state), returning the
translated text on success and None on exception. -/
def translate_text (env : TransEnv) (st : SvcState) (text target_lang : String) :
    Option String × SvcState :=
  if env.hasGoogletrans = false then (none, st)
  else if target_lang = "en" then (some text, st)
  else
    let st' : SvcState := ⟨st.translateCalls + 1⟩
    match env.svcResult text target_lang with
    | some t => (some t, st')
    | none => (none, st')

/-- Environment where googletrans is available and the service succeeds. -/
def envSvcOk : TransEnv := ⟨true, fun _ _ => some "translated"⟩

/-- Environment where googletrans is available but every service call
raises (translation provider unreachable). -/
def envSvcFail : TransEnv := ⟨true, fun _ _ => none⟩

/-- Environment where the googletrans import failed. -/
def envNoGoogletrans : TransEnv := ⟨false, fun _ _ => some "translated"⟩

/-- Per-attempt outcome oracle for one gTTS synthesis/playback attempt in
`speak_in_language` (queries.py lines 345-365): the attempt may succeed,
raise before `tts.save` wrote the file, or raise after the file exists
(during save completion, load or playback). -/
inductive AttemptResult where
  | okPlay
  | failBeforeSave
  | failAfterSave
deriving DecidableEq

/-- Existence of the temporary audio file across the retry loop of
`speak_in_language`: a fully successful attempt plays, unloads, removes
the file and returns; a failed attempt only logs and sleeps, leaving the
file in whatever state the exception left it. -/
def runAttempts : List AttemptResult → Bool → Bool
  | [], ex => ex
  | a :: rest, ex =>
    match a with
    | AttemptResult.okPlay => false
    | AttemptResult.failBeforeSave => runAttempts rest ex
    | AttemptResult.failAfterSave => runAttempts rest true

/-- Whether the temporary `synth_<lang>_<ts>.mp3` file produced by
`speak_in_language` (queries.py lines 310-367) still exists when the
function returns, given the empty-text guard, gTTS availability, and the
outcome of each synthesis/playback attempt. -/
def speak_in_language_tmp_exists (text_en : String) (hasGtts : Bool)
    (attempts : List AttemptResult) : Bool :=
  if text_en = "" then false
  else if hasGtts = false then false
  else runAttempts attempts false

lemma runAttempts_true_of_no_ok : ∀ (l : List AttemptResult),
    (∀ a ∈ l, a ≠ AttemptResult.okPlay) → runAttempts l true = true := by
  intro l
  induction l with
  | nil => intro _; rfl
  | cons a rest ih =>
    intro h
    cases a with
    | okPlay => exact absurd rfl (h AttemptResult.okPlay (by simp))
    | failBeforeSave => exact ih (fun x hx => h x (by simp [hx]))
    | failAfterSave => exact ih (fun x hx => h x (by simp [hx]))

lemma runAttempts_of_no_ok : ∀ (l : List AttemptResult),
    (∀ a ∈ l, a ≠ AttemptResult.okPlay) →
    runAttempts l false = l.any (fun a => decide (a = AttemptResult.failAfterSave)) := by
  intro l
  induction l with
  | nil => intro _; rfl
  | cons a rest ih =>
    intro h
    cases a with
    | okPlay => exact absurd rfl (h AttemptResult.okPlay (by simp))
    | failBeforeSave =>
      rw [show runAttempts (AttemptResult.failBeforeSave :: rest) false
            = runAttempts rest false from rfl]
      rw [ih (fun x hx => h x (by simp [hx]))]
      simp
    | failAfterSave =>
      rw [show runAttempts (AttemptResult.failAfterSave :: rest) false
            = runAttempts rest true from rfl]
      rw [runAttempts_true_of_no_ok rest (fun x hx => h x (by simp [hx]))]
      simp

/-- Per-turn environment for `run_single_interaction` (queries.py lines
552-583): whether `record_audio` produced a file, and the result of
`transcribe_audio` on it (`none` after its own retries means failure; a
successful transcript is returned lower-cased and stripped by the STT
wrapper). -/
structure TurnEnv where
  recordOk : Bool
  transcriptResult : Option String

/-- Translation of `run_single_interaction` (queries.py lines 552-583):
recording failure and transcription failure both yield `(None, False)`;
a transcript that triggers `should_exit` yields `(text, False)` without
generating a fact response; otherwise the fact response is generated and
the turn yields `(text, True)`. -/
def run_single_interaction (env : TurnEnv) : Option String × Bool :=
  if env.recordOk = false then (none, false)
  else
    match env.transcriptResult with
    | none => (none, false)
    | some user_text =>
      if should_exit user_text then (some user_text, false)
      else (some user_text, true)

/-- Number of calls to `compare_to_facts` made by one run of
`run_single_interaction`: the failure paths and the exit path return
before line 577; only the continue path evaluates the fact matcher. -/
def run_single_interaction_factCalls (env : TurnEnv) : Nat :=
  if env.recordOk = false then 0
  else
    match env.transcriptResult with
    | none => 0
    | some user_text => if should_exit user_text then 0 else 1

/-- Turn outcome as classified by `run_conversation_mode` from the pair
returned by `run_single_interaction`: `user_text is None` is a failed
turn, text with `should_continue = False` is an exit request, text with
`should_continue = True` continues the conversation. -/
inductive Outcome where
  | failed
  | exitRequested (text : String)
  | continueTurn (text : String)
deriving DecidableEq

/-- Classification applied by the loop body (queries.py lines 603-627). -/
def outcomeOf : Option String × Bool → Outcome
  | (none, _) => Outcome.failed
  | (some t, false) => Outcome.exitRequested t
  | (some t, true) => Outcome.continueTurn t

/-- Config.MAX_CONSECUTIVE_ERRORS (queries.py line 55). -/
def MAX_CONSECUTIVE_ERRORS : Nat := 3

/-- Goodbye message spoken when the loop ends normally (line 623, with
FACTS applied). -/
def goodbye_message : String :=
  "Thank you for using Greenfield International School Voice Assistant. Goodbye!"

/-- Terminal message spoken when the consecutive-error threshold is
reached (line 610). -/
def too_many_errors_message : String := "Too many errors occurred. Ending conversation."

/-- Prompt spoken after a non-final failed turn (line 615). -/
def try_again_message : String := "Would you like to try again?"

/-- Translation of the loop body of `run_conversation_mode` (queries.py
lines 585-629) over a finite trace of turn outcomes, carrying the
consecutive-error counter. Result: `none` when the trace is exhausted with
the loop still running, `some code` when the loop returned, paired with
the loop-level messages spoken along the way. On a failed turn the counter
is incremented and checked against the threshold; on a continue turn it is
reset to 0; on an exit request the goodbye message is spoken and the loop
returns 0. -/
def run_conversation_mode : List Outcome → Nat → Option Nat × List String
  | [], _ => (none, [])
  | o :: rest, consecutive_errors =>
    match o with
    | Outcome.failed =>
      if MAX_CONSECUTIVE_ERRORS ≤ consecutive_errors + 1 then
        (some 1, [too_many_errors_message])
      else
        let r := run_conversation_mode rest (consecutive_errors + 1)
        (r.1, try_again_message :: r.2)
    | Outcome.exitRequested _ => (some 0, [goodbye_message])
    | Outcome.continueTurn _ => run_conversation_mode rest 0

/-- Trace begins with `n` failed outcomes. -/
def startsWithFaileds : Nat → List Outcome → Bool
  | 0, _ => true
  | _ + 1, [] => false
  | n + 1, o :: rest => decide (o = Outcome.failed) && startsWithFaileds n rest

/-- Trace contains `MAX_CONSECUTIVE_ERRORS` consecutive failed outcomes. -/
def hasThreeConsecutiveFailed : List Outcome → Bool
  | [] => false
  | o :: rest =>
    startsWithFaileds MAX_CONSECUTIVE_ERRORS (o :: rest) || hasThreeConsecutiveFailed rest

lemma has3_tail (o : Outcome) (rest : List Outcome)
    (h : hasThreeConsecutiveFailed rest = true) :
    hasThreeConsecutiveFailed (o :: rest) = true := by
  simp [hasThreeConsecutiveFailed, h]

lemma has3_of_startsF (l : List Outcome)
    (h : startsWithFaileds MAX_CONSECUTIVE_ERRORS l = true) :
    hasThreeConsecutiveFailed l = true := by
  cases l with
  | nil => simp [startsWithFaileds, MAX_CONSECUTIVE_ERRORS] at h
  | cons o rest => simp [hasThreeConsecutiveFailed, h]

lemma loop_code_zero_or_one : ∀ (trace : List Outcome) (errs c : Nat),
    (run_conversation_mode trace errs).1 = some c → c = 0 ∨ c = 1 := by
  intro trace
  induction trace with
  | nil => intro errs c h; simp [run_conversation_mode] at h
  | cons o rest ih =>
    intro errs c h
    cases o with
    | failed =>
      by_cases hex : MAX_CONSECUTIVE_ERRORS ≤ errs + 1
      · simp [run_conversation_mode, hex] at h
        exact Or.inr h.symm
      · simp [run_conversation_mode, hex] at h
        exact ih (errs + 1) c h
    | exitRequested t =>
      simp [run_conversation_mode] at h
      exact Or.inl h.symm
    | continueTurn t =>
      simp [run_conversation_mode] at h
      exact ih 0 c h

lemma loop_some_one_consec : ∀ (trace : List Outcome) (errs : Nat),
    (run_conversation_mode trace errs).1 = some 1 →
    startsWithFaileds (MAX_CONSECUTIVE_ERRORS - errs) trace = true ∨
      hasThreeConsecutiveFailed trace = true := by
  intro trace
  induction trace with
  | nil => intro errs h; simp [run_conversation_mode] at h
  | cons o rest ih =>
    intro errs h
    cases o with
    | failed =>
      by_cases hex : MAX_CONSECUTIVE_ERRORS ≤ errs + 1
      · left
        have h2 : MAX_CONSECUTIVE_ERRORS - errs = 0 ∨ MAX_CONSECUTIVE_ERRORS - errs = 1 := by
          simp only [MAX_CONSECUTIVE_ERRORS] at hex ⊢
          omega
        rcases h2 with h2 | h2 <;> rw [h2] <;> simp [startsWithFaileds]
      · have h' : (run_conversation_mode rest (errs + 1)).1 = some 1 := by
          simpa [run_conversation_mode, hex] using h
        rcases ih (errs + 1) h' with hs | h3
        · left
          have heq : MAX_CONSECUTIVE_ERRORS - errs
              = (MAX_CONSECUTIVE_ERRORS - (errs + 1)) + 1 := by
            simp only [MAX_CONSECUTIVE_ERRORS] at hex ⊢
            omega
          rw [heq]
          simp [startsWithFaileds, hs]
        · exact Or.inr (has3_tail _ _ h3)
    | exitRequested t => simp [run_conversation_mode] at h
    | continueTurn t =>
      have h' : (run_conversation_mode rest 0).1 = some 1 := by
        simpa [run_conversation_mode] using h
      rcases ih 0 h' with hs | h3
      · exact Or.inr (has3_tail _ _ (has3_of_startsF _ hs))
      · exact Or.inr (has3_tail _ _ h3)

lemma pyIn_principal_of_vice (t : String) (h : pyIn "vice principal" t = true) :
    pyIn "principal" t = true := by
  rw [pyIn_iff] at h ⊢
  obtain ⟨pre, post, hpp⟩ := h
  have hsplit : ("vice principal" : String).data
      = ("vice " : String).data ++ ("principal" : String).data := by decide
  refine ⟨pre ++ ("vice " : String).data, post, ?_⟩
  rw [hpp, hsplit]
  simp [List.append_assoc]

lemma responseList_true_head (b2 b3 b4 b5 b6 b7 b8 : Bool) :
    ∃ R, responseList true b2 b3 b4 b5 b6 b7 b8 = principal_answer :: R :=
  ⟨_, rfl⟩

/-- C2 counterexample: the claim predicts `shouldExit` is false when an
exit phrase occurs only embedded in a different word, but `should_exit`
uses the raw Python substring operator, so the keyword "end" inside the
word "friend" triggers an exit. -/
theorem should_exit_embedded_substring_cx : should_exit "friend" = true := by decide

/-- C2 (amended): `should_exit` returns false on empty text, and
otherwise returns true exactly when some configured exit keyword occurs
as a contiguous substring (case-insensitively) anywhere in the text,
including embedded inside an unrelated word; there is no whole-word
anchoring. -/
theorem should_exit_substring_semantics :
    ∀ text : String,
      should_exit "" = false
      ∧ (should_exit text = true ↔ ∃ k ∈ EXIT_KEYWORDS, OccursIn k (pyNorm text)) :=
  fun text => ⟨rfl, should_exit_iff text⟩

/-- C3 counterexample: two identical calls of `translate_text` invoke the
external service twice, both when the service succeeds and when it fails;
there is no session cache and no negative caching. -/
theorem translate_text_no_cache_cx :
    (translate_text envSvcOk
        (translate_text envSvcOk ⟨0⟩ "hello" "gu").2 "hello" "gu").2.translateCalls = 2
    ∧ (translate_text envSvcFail
        (translate_text envSvcFail ⟨0⟩ "hello" "gu").2 "hello" "gu").2.translateCalls = 2 :=
  ⟨rfl, rfl⟩

/-- C3 (amended): `translate_text` maintains no cache at all: every call
with googletrans available and a non-"en" target invokes the external
service exactly once, independent of any previous calls, and simply
forwards the service result (returning None on failure without storing a
sentinel). -/
theorem translate_text_always_calls_service :
    ∀ (env : TransEnv) (st : SvcState) (text lang : String),
      env.hasGoogletrans = true → lang ≠ "en" →
      (translate_text env st text lang).2.translateCalls = st.translateCalls + 1
      ∧ (translate_text env st text lang).1 = env.svcResult text lang := by
  intro env st text lang h1 h2
  unfold translate_text
  rw [if_neg (by simp [h1]), if_neg h2]
  cases hsvc : env.svcResult text lang <;> simp [hsvc]

/-- Witness for the amended C3 theorem at a concrete environment. -/
theorem translate_text_always_calls_service_witness :
    (translate_text envSvcOk ⟨0⟩ "hello" "gu").2.translateCalls = 1
    ∧ (translate_text envSvcOk ⟨0⟩ "hello" "gu").1 = some "translated" := by
  have h := translate_text_always_calls_service envSvcOk ⟨0⟩ "hello" "gu" rfl (by decide)
  exact ⟨h.1, h.2⟩

/-- C4 counterexample: when the googletrans import failed,
`translate_text text "en"` returns None rather than the text unchanged,
because the availability guard precedes the "en" identity case. -/
theorem translate_text_en_unavailable_cx :
    (translate_text envNoGoogletrans ⟨0⟩ "hello" "en").1 = none
    ∧ (translate_text envNoGoogletrans ⟨0⟩ "hello" "en").1 ≠ some "hello" :=
  ⟨rfl, by decide⟩

/-- C4 (amended): `translate_text` with target "en" never invokes the
external service in any environment; it returns the input text unchanged
when the googletrans backend is available, and None when it is
unavailable. -/
theorem translate_text_en_no_service_call :
    ∀ (env : TransEnv) (st : SvcState) (text : String),
      (translate_text env st text "en").2.translateCalls = st.translateCalls
      ∧ (env.hasGoogletrans = true → translate_text env st text "en" = (some text, st))
      ∧ (env.hasGoogletrans = false → translate_text env st text "en" = (none, st)) := by
  intro env st text
  cases henv : env.hasGoogletrans <;> simp [translate_text, henv]

/-- Witness for the amended C4 theorem at a concrete environment. -/
theorem translate_text_en_no_service_call_witness :
    (translate_text envSvcOk ⟨7⟩ "hi" "en").2.translateCalls = 7
    ∧ translate_text envSvcOk ⟨7⟩ "hi" "en" = (some "hi", ⟨7⟩) := by
  have h := translate_text_en_no_service_call envSvcOk ⟨7⟩ "hi"
  exact ⟨h.1, h.2.1 rfl⟩

/-- C5 counterexample: the fact table has no vice-principal sub-variant;
on a text containing "vice principal" the matcher fires the base
principal pattern (substring "principal") and returns the base category
answer, contradicting the claim that only a disambiguating sub-variant
answer is returned and never the base answer. -/
theorem compare_to_facts_vice_principal_cx :
    compare_to_facts "who is the vice principal" = principal_answer := by decide

/-- C5 (amended): there is no sub-variant pattern in the matcher; every
text containing "vice principal" necessarily satisfies the base principal
condition, and the response begins with the base principal answer. -/
theorem compare_to_facts_vice_principal_base :
    ∀ text : String,
      pyIn "vice principal" (pyNorm text) = true →
      m_principal (pyNorm text) = true
      ∧ ∃ s, compare_to_facts text = principal_answer ++ s := by
  intro text h
  have hp : pyIn "principal" (pyNorm text) = true := pyIn_principal_of_vice _ h
  have hm : m_principal (pyNorm text) = true := by
    simp only [m_principal, matchAny, List.any_eq_true]
    exact ⟨"principal", by simp, hp⟩
  refine ⟨hm, ?_⟩
  have hne : text ≠ "" := by
    rintro rfl
    exact absurd h (by decide)
  obtain ⟨R, hR⟩ := responseList_true_head (m_school_name (pyNorm text))
    (m_location (pyNorm text)) (m_motto (pyNorm text)) (m_established (pyNorm text))
    (m_grades (pyNorm text)) (m_timings (pyNorm text)) (m_contact (pyNorm text))
  have hR' : responsesOf (pyNorm text) = principal_answer :: R := by
    unfold responsesOf
    rw [hm]
    exact hR
  have hcf : compare_to_facts text = pyJoin " " (responsesOf (pyNorm text)) := by
    simp only [compare_to_facts, if_neg hne]
    rw [if_neg (by rw [hR']; simp)]
  rw [hcf, hR']
  exact pyJoin_cons_shape principal_answer R

/-- Witness for the amended C5 theorem at a concrete query. -/
theorem compare_to_facts_vice_principal_base_witness :
    m_principal (pyNorm "who is the vice principal") = true
    ∧ ∃ s, compare_to_facts "who is the vice principal" = principal_answer ++ s :=
  compare_to_facts_vice_principal_base "who is the vice principal" (by decide)

/-- C6 counterexample: when both synthesis/playback attempts raise after
the temporary file was written, `speak_in_language` returns with the file
still on disk; the cleanup only runs on the successful-playback path, not
under exceptions. -/
theorem speak_in_language_tmp_leak_cx :
    speak_in_language_tmp_exists "Hello" true
      [AttemptResult.failAfterSave, AttemptResult.failAfterSave] = true := by decide

/-- C6 (amended): the temporary audio file is deleted on the
successful-playback path (a successful attempt always ends with the file
removed), but there is no exception-safe cleanup: if every attempt fails,
the file persists exactly when some attempt raised after the synthesis
wrote the file. -/
theorem speak_in_language_tmp_cleanup :
    ∀ (text_en : String) (attempts : List AttemptResult),
      speak_in_language_tmp_exists text_en true (AttemptResult.okPlay :: attempts) = false
      ∧ ((∀ a ∈ attempts, a ≠ AttemptResult.okPlay) →
          speak_in_language_tmp_exists text_en true attempts
            = (if text_en = "" then false
               else attempts.any (fun a => decide (a = AttemptResult.failAfterSave)))) := by
  intro text_en attempts
  constructor
  · by_cases he : text_en = "" <;> simp [speak_in_language_tmp_exists, he, runAttempts]
  · intro hno
    by_cases he : text_en = ""
    · simp [speak_in_language_tmp_exists, he]
    · simp only [speak_in_language_tmp_exists, if_neg he]
      rw [if_neg (by simp), runAttempts_of_no_ok attempts hno]

/-- Witness for the amended C6 theorem at concrete attempt outcomes. -/
theorem speak_in_language_tmp_cleanup_witness :
    speak_in_language_tmp_exists "Hello" true
      (AttemptResult.okPlay :: [AttemptResult.failAfterSave]) = false
    ∧ speak_in_language_tmp_exists "Hello" true [AttemptResult.failAfterSave] = true := by
  have h := speak_in_language_tmp_cleanup "Hello" [AttemptResult.failAfterSave]
  refine ⟨h.1, ?_⟩
  rw [h.2 (by decide)]
  decide

/-- C8: for the empty input, `compare_to_facts` returns exactly the fixed
prompt string via the early-return branch, before any category pattern is
evaluated (the instrumented pattern count for the empty input is 0, while
any non-empty input evaluates all eight category conditions). -/
theorem compare_to_facts_empty_input :
    compare_to_facts "" = didnt_catch_answer
    ∧ didnt_catch_answer = "Sorry, I didn't catch that. Could you please repeat?"
    ∧ compare_to_facts_patterns_tested "" = 0
    ∧ ∀ text : String,
        compare_to_facts_patterns_tested text = if text = "" then 0 else 8 := by
  refine ⟨rfl, rfl, rfl, ?_⟩
  intro text
  by_cases he : text = "" <;> simp [compare_to_facts_patterns_tested, he]

/-- C9: `compare_to_facts` is total and never returns the empty string:
the empty input yields the fixed prompt; a non-empty input yields either
the fixed fallback (when no category matched) or the space-join of the
matched category answers, which always form a sublist of the fixed answer
table in table order. -/
theorem compare_to_facts_total_nonempty :
    ∀ text : String,
      compare_to_facts text ≠ ""
      ∧ compare_to_facts "" = didnt_catch_answer
      ∧ List.Sublist (responsesOf (pyNorm text)) all_fact_answers
      ∧ (text ≠ "" →
          (responsesOf (pyNorm text) = [] → compare_to_facts text = no_match_answer)
          ∧ (responsesOf (pyNorm text) ≠ [] →
              compare_to_facts text = pyJoin " " (responsesOf (pyNorm text)))) := by
  intro text
  have hsub : List.Sublist (responsesOf (pyNorm text)) all_fact_answers := by
    unfold responsesOf
    exact responseList_sublist _ _ _ _ _ _ _ _
  refine ⟨?_, rfl, hsub, ?_⟩
  · by_cases he : text = ""
    · subst he
      decide
    · by_cases hr : responsesOf (pyNorm text) = []
      · have : compare_to_facts text = no_match_answer := by
          simp only [compare_to_facts, if_neg he]
          rw [if_pos hr]
        rw [this]
        decide
      · have : compare_to_facts text = pyJoin " " (responsesOf (pyNorm text)) := by
          simp only [compare_to_facts, if_neg he]
          rw [if_neg hr]
        rw [this]
        exact pyJoin_ne_empty _ hr
          (fun s hs => all_fact_answers_ne_empty s (hsub.subset hs))
  · intro hne
    constructor
    · intro hr
      simp only [compare_to_facts, if_neg hne]
      rw [if_pos hr]
    · intro hr
      simp only [compare_to_facts, if_neg hne]
      rw [if_neg hr]

/-- Witness for the C9 theorem at a concrete location query. -/
theorem compare_to_facts_total_nonempty_witness :
    compare_to_facts "where is the school located" ≠ ""
    ∧ compare_to_facts "" = didnt_catch_answer
    ∧ List.Sublist (responsesOf (pyNorm "where is the school located")) all_fact_answers
    ∧ compare_to_facts "where is the school located"
        = pyJoin " " (responsesOf (pyNorm "where is the school located")) := by
  have h := compare_to_facts_total_nonempty "where is the school located"
  exact ⟨h.1, h.2.1, h.2.2.1, (h.2.2.2 (by decide)).2 (by decide)⟩

/-- C10: a turn never yields recognized text None together with a True
continue flag; every turn result is exactly one of the three shapes the
loop classifies — failed `(None, False)`, exit-requested
`(text, False)`, or continue `(text, True)`. -/
theorem run_single_interaction_outcome_shape :
    ∀ env : TurnEnv,
      run_single_interaction env ≠ (none, true)
      ∧ ((run_single_interaction env).1 = none → (run_single_interaction env).2 = false)
      ∧ (run_single_interaction env = (none, false)
         ∨ (∃ t, run_single_interaction env = (some t, false))
         ∨ (∃ t, run_single_interaction env = (some t, true))) := by
  intro env
  obtain ⟨rec, tr⟩ := env
  cases rec with
  | false =>
    refine ⟨by simp [run_single_interaction], by simp [run_single_interaction],
      Or.inl (by simp [run_single_interaction])⟩
  | true =>
    cases tr with
    | none =>
      refine ⟨by simp [run_single_interaction], by simp [run_single_interaction],
        Or.inl (by simp [run_single_interaction])⟩
    | some t =>
      have hcase : run_single_interaction ⟨true, some t⟩ = (some t, false)
          ∨ run_single_interaction ⟨true, some t⟩ = (some t, true) := by
        by_cases hx : should_exit t = true <;> simp [run_single_interaction, hx]
      rcases hcase with h | h
      · exact ⟨by rw [h]; simp, by rw [h]; simp, Or.inr (Or.inl ⟨t, h⟩)⟩
      · exact ⟨by rw [h]; simp, by rw [h]; simp, Or.inr (Or.inr ⟨t, h⟩)⟩

/-- Witness for the C10 theorem at a failing-capture environment. -/
theorem run_single_interaction_outcome_shape_witness :
    run_single_interaction ⟨false, none⟩ ≠ (none, true)
    ∧ (run_single_interaction ⟨false, none⟩).2 = false := by
  have h := run_single_interaction_outcome_shape ⟨false, none⟩
  exact ⟨h.1, h.2.1 rfl⟩

/-- C1: with the default threshold 3, three consecutive failed turns
terminate `run_conversation_mode` with exit status 1; any returned status
is 0 or 1, and status 1 is only produced by a trace containing three
consecutive failed turns (consecutive-failure exhaustion is the only
non-zero termination); a successful continue turn before the third
consecutive failure resets the counter so the loop proceeds as if fresh. -/
theorem run_conversation_mode_exhaustion_policy :
    ∀ (rest trace : List Outcome) (t : String) (c : Nat),
      (run_conversation_mode
          (Outcome.failed :: Outcome.failed :: Outcome.failed :: rest) 0).1 = some 1
      ∧ ((run_conversation_mode trace 0).1 = some c → c = 0 ∨ c = 1)
      ∧ ((run_conversation_mode trace 0).1 = some 1 →
          hasThreeConsecutiveFailed trace = true)
      ∧ (run_conversation_mode
            (Outcome.failed :: Outcome.failed :: Outcome.continueTurn t :: rest) 0).1
          = (run_conversation_mode rest 0).1 := by
  intro rest trace t c
  refine ⟨?_, loop_code_zero_or_one trace 0 c, ?_, ?_⟩
  · simp [run_conversation_mode, MAX_CONSECUTIVE_ERRORS]
  · intro h
    rcases loop_some_one_consec trace 0 h with hs | h3
    · exact has3_of_startsF _ (by simpa using hs)
    · exact h3
  · simp [run_conversation_mode, MAX_CONSECUTIVE_ERRORS]

/-- Witness for the C1 theorem at concrete traces. -/
theorem run_conversation_mode_exhaustion_policy_witness :
    (run_conversation_mode [Outcome.failed, Outcome.failed, Outcome.failed] 0).1 = some 1
    ∧ ((1 : Nat) = 0 ∨ (1 : Nat) = 1)
    ∧ hasThreeConsecutiveFailed [Outcome.failed, Outcome.failed, Outcome.failed] = true
    ∧ (run_conversation_mode
          [Outcome.failed, Outcome.failed, Outcome.continueTurn "ok"] 0).1
        = (run_conversation_mode [] 0).1 := by
  have h := run_conversation_mode_exhaustion_policy []
    [Outcome.failed, Outcome.failed, Outcome.failed] "ok" 1
  exact ⟨h.1, h.2.1 (by decide), h.2.2.1 (by decide), h.2.2.2⟩

/-- C7: a recorded and transcribed turn whose transcript contains an exit
phrase returns `(text, False)` without invoking the fact matcher, and the
conversation loop then speaks the goodbye message and terminates with
exit status 0. -/
theorem run_single_interaction_exit_phrase :
    ∀ (env : TurnEnv) (t : String) (rest : List Outcome),
      env.recordOk = true →
      env.transcriptResult = some t →
      (∃ k ∈ EXIT_KEYWORDS, OccursIn k (pyNorm t)) →
      run_single_interaction env = (some t, false)
      ∧ run_single_interaction_factCalls env = 0
      ∧ run_conversation_mode (outcomeOf (run_single_interaction env) :: rest) 0
          = (some 0, [goodbye_message]) := by
  intro env t rest hrec htr hocc
  have hx : should_exit t = true := (should_exit_iff t).mpr hocc
  have h1 : run_single_interaction env = (some t, false) := by
    simp [run_single_interaction, hrec, htr, hx]
  have h2 : run_single_interaction_factCalls env = 0 := by
    simp [run_single_interaction_factCalls, hrec, htr, hx]
  refine ⟨h1, h2, ?_⟩
  rw [h1]
  rfl

/-- Witness for the C7 theorem at the transcript "stop". -/
theorem run_single_interaction_exit_phrase_witness :
    run_single_interaction ⟨true, some "stop"⟩ = (some "stop", false)
    ∧ run_single_interaction_factCalls ⟨true, some "stop"⟩ = 0
    ∧ run_conversation_mode
        (outcomeOf (run_single_interaction ⟨true, some "stop"⟩) :: ([] : List Outcome)) 0
        = (some 0, [goodbye_message]) :=
  run_single_interaction_exit_phrase ⟨true, some "stop"⟩ "stop" []
    rfl rfl ⟨"stop", by decide, [], [], by decide⟩
